import Mathlib

/-!
Verification of the SmartScraper execution sandbox and repair loop.

The definitions below are a shallow embedding of `src/sandbox/executor.py`
(the `SandboxExecutor` class, its module-level policy constants, and the
`safe_import` guard built by `create_safe_globals`) and, where the repository
sources do not contain the component, a model built from the specification.

Dynamic evaluation of candidate Python source (`exec(code, exec_globals)` and
the call `scrape_func(url)`) cannot itself be embedded, so a candidate
program's dynamic behaviour is a parameter: what top-level evaluation prints
and whether it raises, whether the name `scrape` ends up in the namespace,
and what the entry-point call prints, returns or raises.  The engine's own
control flow — the static pre-scan, the namespace check, the
`try/except ModuleNotFoundError/except Exception/finally` dispatch and the
stdout capture and restoration — is translated directly from the source.
-/

/-- Python runtime values, as far as the `data` field of an execution result
needs them.  `PyValue.none` plays the role of Python `None`, which is also the
dataclass default for `data`. -/
inductive PyValue
  | none
  | str (s : String)
  | int (n : Int)
  | listOf (xs : List PyValue)

/-- A raised Python exception, as seen by the `except` clauses of
`SandboxExecutor.execute`: its class name, its `str(e)` message, and which of
the two handler guards it satisfies.  `isModuleNotFound` models
`isinstance(e, ModuleNotFoundError)`; `isException` models
`isinstance(e, Exception)`.  Exceptions with both flags false model
`BaseException`-only exceptions such as `SystemExit` and `KeyboardInterrupt`,
which no handler in the source catches. -/
structure PyExc where
  tyName : String
  msg : String
  isModuleNotFound : Bool
  isException : Bool

/-- Outcome of running one dynamic Python action: the text it wrote to the
(redirected) standard output, and either a returned value or a raised
exception. -/
inductive PyOutcome (α : Type)
  | ok (printed : String) (val : α)
  | raises (printed : String) (e : PyExc)

/-- The dynamic behaviour of one candidate program against one URL: the
effect of `exec(code, exec_globals)`, whether `"scrape" in exec_globals`
holds afterwards, and the effect of `scrape_func(url)`. -/
structure CandidateBehavior where
  execRun : PyOutcome Unit
  definesScrape : Bool
  scrapeRun : PyOutcome PyValue

/-- An output stream object that can be installed as `sys.stdout`: either a
pre-existing host stream or the fresh `io.StringIO` buffer that
`execute` installs for the duration of the call. -/
inductive StdoutStream
  | host (id : Nat)
  | buffer

/-- The `ExecutionResult` dataclass of `src/sandbox/executor.py`, with the
source's field defaults (`data = None`, `error = None`, `stdout = ""`). -/
structure ExecutionResult where
  success : Bool
  data : PyValue := PyValue.none
  error : Option String := Option.none
  stdout : String := ""

/-- What a call to `execute` does to its caller: either it returns a normal
`ExecutionResult`, or an exception escapes it. -/
inductive ExecOutcome
  | result (r : ExecutionResult)
  | escaped (e : PyExc)

/-- True exactly when the call returned a well-formed `ExecutionResult`. -/
def ExecOutcome.isNormalResult : ExecOutcome → Bool
  | ExecOutcome.result _ => true
  | ExecOutcome.escaped _ => false

/-- The `r.stdout` field of a normal return, if the call returned normally. -/
def outcomeStdout : ExecOutcome → Option String
  | ExecOutcome.result r => some r.stdout
  | ExecOutcome.escaped _ => Option.none

/-- The `r.error` field of a normal return, if the call returned normally. -/
def outcomeError : ExecOutcome → Option (Option String)
  | ExecOutcome.result r => some r.error
  | ExecOutcome.escaped _ => Option.none

/-- Python's substring test `pat in s`: `pat` occurs contiguously in `s`. -/
def strContains (s pat : String) : Bool :=
  decide (pat.data <:+: s.data)

/-- A single-quote character as a string (the quote used by the source's
f-string messages and by the `str(e).split` module-name extraction). -/
def squote : String := String.singleton (Char.ofNat 39)

/-- `ALLOWED_MODULES` from `src/sandbox/executor.py` lines 22-30: the
module-level whitelist constant. -/
def ALLOWED_MODULES : List String :=
  ["requests", "bs4", "BeautifulSoup", "json", "re", "datetime", "time"]

/-- `ALLOWED_IMPORTS` from `create_safe_globals` (lines 50-65): the set
that the module guard actually consults. -/
def ALLOWED_IMPORTS : List String :=
  ["requests", "bs4", "json", "re", "datetime", "time", "typing",
   "collections", "urllib", "urllib.parse", "urllib.request", "urllib.error",
   "math", "random"]

/-- `name.split('.')[0]`: the base module of a dotted module name — the
characters before the first dot, or the whole name when it has no dot. -/
def base_name (name : String) : String :=
  String.mk (name.data.takeWhile (fun c => c ≠ '.'))

/-- The message of the `ImportError` raised by `safe_import` on a denial
(line 76): `Sandbox Restriction: Module '<name>' is not allowed.` -/
def denialMsg (name : String) : String :=
  "Sandbox Restriction: Module " ++ squote ++ name ++ squote ++
    " is not allowed."

/-- The `ImportError` object raised by `safe_import` on a denial: a plain
`ImportError`, which is an `Exception` but not a `ModuleNotFoundError`. -/
def denialExc (name : String) : PyExc :=
  { tyName := "ImportError", msg := denialMsg name,
    isModuleNotFound := false, isException := true }

/-- Result of one call to the guarded `__import__` hook. -/
inductive ImportResult
  | allowed
  | denied (e : PyExc)

/-- `safe_import` from `create_safe_globals` (lines 68-76), with the module
name as the decision-relevant argument: allowed when the full dotted name or
its base name is in `ALLOWED_IMPORTS`, otherwise an `ImportError` is raised.
The first parameter stands for the module-level `ALLOWED_MODULES` global,
which is in scope for the function body; the body, like the source, never
reads it. -/
def safe_import (allowedModulesGlobal : List String) (name : String) :
    ImportResult :=
  if ALLOWED_IMPORTS.contains name || ALLOWED_IMPORTS.contains (base_name name)
  then ImportResult.allowed
  else ImportResult.denied (denialExc name)

/-- `dangerous_keywords` from `execute` line 135. -/
def dangerous_keywords : List String :=
  ["os.", "subprocess", "socket", "eval(", "exec("]

/-- The first dangerous keyword found in the source text, scanning the
keyword list in order as the `for` loop on lines 136-141 does. -/
def firstDangerous (code : String) : Option String :=
  dangerous_keywords.find? (fun kw => strContains code kw)

/-- The pre-scan rejection message of line 140:
`禁止使用危險關鍵字: <keyword>`. -/
def policyMsg (kw : String) : String :=
  "禁止使用危險關鍵字: " ++ kw

/-- The missing-entry-point message of line 156. -/
def missingEntryMsg : String := "程式碼必須定義 scrape(url) 函數"

/-- The sanitized generic message of line 189, used whenever `str(e)`
contains `scrape`. -/
def genericScrapeErr : String := "程式碼執行錯誤，請檢查 scrape() 函數"

/-- `install_hints` from lines 171-175. -/
def install_hints : List (String × String) :=
  [("bs4", "uv add beautifulsoup4"),
   ("beautifulsoup4", "uv add beautifulsoup4"),
   ("requests", "uv add requests")]

/-- `install_hints.get(module_name, f"uv add {module_name}")` (line 176). -/
def installCmd (m : String) : String :=
  (List.lookup m install_hints).getD ("uv add " ++ m)

/-- `module_name = str(e).split("'")[1] if "'" in str(e) else str(e)`
(line 170). -/
def extractModuleName (msg : String) : String :=
  if strContains msg squote then (msg.splitOn squote).getD 1 "" else msg

/-- The missing-module message built on line 180. -/
def missingModuleMsg (m : String) : String :=
  "缺少模組: " ++ m ++ "\n\n請執行安裝指令:\n" ++ installCmd m

/-- The error string of line 185 possibly rewritten by lines 188-189:
`type(e).__name__: str(e)`, replaced by the generic message when `str(e)`
contains `scrape`. -/
def runtimeErrMsg (e : PyExc) : String :=
  if strContains e.msg "scrape" then genericScrapeErr
  else e.tyName ++ ": " ++ e.msg

/-- The `except` clauses of `execute` (lines 168-195) applied to an exception
raised inside the `try` block, with `captured` the content of the stdout
buffer at that moment.  `except ModuleNotFoundError` is tried first, then
`except Exception`; an exception matching neither propagates to the caller. -/
def handleExc (e : PyExc) (captured : String) : ExecOutcome :=
  if e.isModuleNotFound then
    ExecOutcome.result
      { success := false, data := PyValue.none,
        error := some (missingModuleMsg (extractModuleName e.msg)),
        stdout := captured }
  else if e.isException then
    ExecOutcome.result
      { success := false, data := PyValue.none,
        error := some (runtimeErrMsg e), stdout := captured }
  else ExecOutcome.escaped e

/-- `SandboxExecutor.execute` (lines 118-197), translated clause by clause.
`old_stdout` is the stream installed as `sys.stdout` when the call starts;
the second component of the result is the stream installed when the call
ends (the `finally` block reinstalls `old_stdout` on every path).  The first
two parameters stand for the `ALLOWED_MODULES` global and `self.timeout`,
both in scope for the body; the body, like the source, reads neither.
Branches mirror the source: pre-scan hit (lines 136-141, default stdout
`""`), top-level evaluation, the `"scrape" not in exec_globals` check
(lines 153-157, default stdout `""`), the entry-point call and `Success`
wrapping (lines 159-166), and exception dispatch via `handleExc`. -/
def executeCore (allowedModulesGlobal : List String) (timeout : Nat)
    (code : String) (beh : CandidateBehavior) (old_stdout : StdoutStream) :
    ExecOutcome × StdoutStream :=
  match firstDangerous code with
  | some kw =>
      (ExecOutcome.result
        { success := false, data := PyValue.none,
          error := some (policyMsg kw), stdout := "" }, old_stdout)
  | Option.none =>
      match beh.execRun with
      | PyOutcome.raises printed e => (handleExc e printed, old_stdout)
      | PyOutcome.ok printed _ =>
          if beh.definesScrape then
            match beh.scrapeRun with
            | PyOutcome.ok printed2 v =>
                (ExecOutcome.result
                  { success := true, data := v, error := Option.none,
                    stdout := printed ++ printed2 }, old_stdout)
            | PyOutcome.raises printed2 e =>
                (handleExc e (printed ++ printed2), old_stdout)
          else
            (ExecOutcome.result
              { success := false, data := PyValue.none,
                error := some missingEntryMsg, stdout := "" }, old_stdout)

/-- The `SandboxExecutor` class: its only state is the `timeout` stored by
`__init__`, whose default is 30 (line 115). -/
structure SandboxExecutor where
  timeout : Nat := 30

/-- The `execute` method: `executeCore` with the module-level
`ALLOWED_MODULES` global and the instance's `timeout` in scope. -/
def SandboxExecutor.execute (self : SandboxExecutor) (code : String)
    (beh : CandidateBehavior) (old_stdout : StdoutStream) : ExecOutcome × StdoutStream :=
  executeCore ALLOWED_MODULES self.timeout code beh old_stdout

/-- Modelled from the spec: the states of the Repair Orchestrator state
machine of §4.4.  The repository sources under `src/` contain only the
single-shot repair endpoint (`fix_code` in `src/main.py`, which performs
exactly one Code-Generation Oracle call per request); the bounded attempt
loop that owns `maxAttempts`, the session history and the terminal states is
missing from `src/` and is modelled here from the specification's words. -/
inductive SessionState
  | Drafted
  | Executing
  | Succeeded
  | NeedsRepair
  | Repairing
  | GaveUp

/-- Modelled from the spec: one entry of an `AttemptSession` history — the
attempt number of the candidate program and whether its execution outcome
was `Success`. -/
structure AttemptRecord where
  attempt : Nat
  succeeded : Bool

/-- Modelled from the spec: the attempt loop of §4.4, driven by `engine`,
which tells for each attempt number whether that attempt's Execution Engine
call returns `Success` (the orchestrator is deterministic given its inputs
and the oracle's replies, so the candidate program at each attempt — and
hence its outcome — is a function of the attempt number).  Each iteration
performs one Execution Engine call and records one history entry; on
`Success` the session ends `Succeeded`, on failure at `attempt = maxAttempts`
it ends `GaveUp`, otherwise the repaired program is resubmitted with
`attempt + 1`.  The last argument is fuel, consumed once per attempt. -/
def sessionLoop (engine : Nat → Bool) (maxAttempts : Nat) :
    Nat → Nat → List AttemptRecord × SessionState
  | _, 0 => ([], SessionState.GaveUp)
  | attempt, fuel + 1 =>
      if engine attempt then
        ([{ attempt := attempt, succeeded := true }], SessionState.Succeeded)
      else if attempt = maxAttempts then
        ([{ attempt := attempt, succeeded := false }], SessionState.GaveUp)
      else
        let r := sessionLoop engine maxAttempts (attempt + 1) fuel
        ({ attempt := attempt, succeeded := false } :: r.fst, r.snd)

/-- Modelled from the spec: a whole `AttemptSession` run — attempts start at
1 and at most `maxAttempts` of them are performed. -/
def runSession (engine : Nat → Bool) (maxAttempts : Nat) :
    List AttemptRecord × SessionState :=
  sessionLoop engine maxAttempts 1 maxAttempts

/-- The `ExecutionResult` built by the static pre-scan rejection on
lines 138-141: only `success` and `error` are passed, the other fields keep
their dataclass defaults. -/
def policyResult (kw : String) : ExecutionResult :=
  { success := false, data := PyValue.none,
    error := some (policyMsg kw), stdout := "" }

/-- A concrete candidate behaviour: top-level evaluation succeeds silently,
`scrape` is defined and returns the record list `[1]`. -/
def c7beh : CandidateBehavior :=
  { execRun := PyOutcome.ok "" (), definesScrape := true,
    scrapeRun := PyOutcome.ok "" (PyValue.listOf [PyValue.int 1]) }

/-- The `ExecutionResult` that `execute` produces on `c7beh`. -/
def c7res : ExecutionResult :=
  { success := true, data := PyValue.listOf [PyValue.int 1],
    error := Option.none, stdout := "" }

theorem executeCore_snd (am : List String) (t : Nat) (code : String)
    (beh : CandidateBehavior) (s : StdoutStream) :
    (executeCore am t code beh s).snd = s := by
  obtain ⟨er, ds, sr⟩ := beh
  unfold executeCore
  cases hd : firstDangerous code with
  | some kw => rfl
  | none =>
      cases er with
      | raises p e => rfl
      | ok p u =>
          cases ds
          · rfl
          · cases sr with
            | ok q v => rfl
            | raises q e => rfl

theorem handleExc_isNormalResult (e : PyExc) (cap : String)
    (h : e.isModuleNotFound = true ∨ e.isException = true) :
    (handleExc e cap).isNormalResult = true := by
  unfold handleExc
  rcases h with h | h
  · simp [h, ExecOutcome.isNormalResult]
  · by_cases hm : e.isModuleNotFound = true
    · simp [hm, ExecOutcome.isNormalResult]
    · simp [hm, h, ExecOutcome.isNormalResult]

theorem handleExc_stdout (e : PyExc) (cap : String)
    (h : e.isModuleNotFound = true ∨ e.isException = true) :
    outcomeStdout (handleExc e cap) = some cap := by
  unfold handleExc
  rcases h with h | h
  · simp [h, outcomeStdout]
  · by_cases hm : e.isModuleNotFound = true
    · simp [hm, outcomeStdout]
    · simp [hm, h, outcomeStdout]

/-- C9: on every path of `execute` — success, caught exception, uncaught
exception — the `finally` block reinstalls the exact stream object that was
installed as `sys.stdout` before the call, so no redirection leaks into
subsequent attempts. -/
theorem c9_stdout_restored (ex : SandboxExecutor) (code : String)
    (beh : CandidateBehavior) (s : StdoutStream) :
    (ex.execute code beh s).snd = s :=
  executeCore_snd ALLOWED_MODULES ex.timeout code beh s

/-- C10: the module-level `ALLOWED_MODULES` set is never consulted: the
module guard `safe_import` and the whole of `execute` compute the same
answer whatever list stands in for that global, and the `execute` method
itself agrees with `executeCore` run with an arbitrary replacement for the
global. -/
theorem c10_allowed_modules_unused (am₁ am₂ : List String)
    (ex : SandboxExecutor) (t : Nat) (code : String) (name : String)
    (beh : CandidateBehavior) (s : StdoutStream) :
    safe_import am₁ name = safe_import am₂ name ∧
    executeCore am₁ t code beh s = executeCore am₂ t code beh s ∧
    ex.execute code beh s = executeCore am₁ ex.timeout code beh s :=
  ⟨rfl, rfl, rfl⟩

/-- C1: the stored timeout (default 30) is never consulted by `execute` —
two executors with arbitrary different timeouts produce identical results on
every source, behaviour and stream, so no wall-clock cutoff and no `Timeout`
outcome exists anywhere in the code. -/
theorem c1_timeout_never_consulted :
    (∀ (ex₁ ex₂ : SandboxExecutor) (code : String) (beh : CandidateBehavior)
        (s : StdoutStream), ex₁.execute code beh s = ex₂.execute code beh s) ∧
    ({ } : SandboxExecutor).timeout = 30 :=
  ⟨fun _ _ _ _ _ => rfl, rfl⟩

/-- C2 counterexample: a candidate whose `scrape` raises `SystemExit` — a
`BaseException` that is not an `Exception`, reachable since `SystemExit` and
`exit` are not in `BLOCKED_BUILTINS` — escapes `execute` unhandled: the call
does not terminate in a well-formed `ExecutionResult`. -/
theorem c2_counterexample :
    (({ } : SandboxExecutor).execute "def scrape(url): raise SystemExit"
      { execRun := PyOutcome.ok "" (), definesScrape := true,
        scrapeRun := PyOutcome.raises ""
          { tyName := "SystemExit", msg := "", isModuleNotFound := false,
            isException := false } }
      (StdoutStream.host 0)).fst.isNormalResult = false := by
  rfl

/-- C2 (amended): `execute` terminates in a well-formed `ExecutionResult`
whenever every exception the candidate raises derives from `Exception`
(which `except ModuleNotFoundError` / `except Exception` catch); exceptions
outside the `Exception` hierarchy, such as `SystemExit`, escape to the
caller. -/
theorem c2_no_escape_for_exception_level (ex : SandboxExecutor)
    (code : String) (beh : CandidateBehavior) (s : StdoutStream)
    (h1 : ∀ p e, beh.execRun = PyOutcome.raises p e →
            e.isModuleNotFound = true ∨ e.isException = true)
    (h2 : ∀ p e, beh.scrapeRun = PyOutcome.raises p e →
            e.isModuleNotFound = true ∨ e.isException = true) :
    (ex.execute code beh s).fst.isNormalResult = true := by
  obtain ⟨er, ds, sr⟩ := beh
  show (executeCore ALLOWED_MODULES ex.timeout code ⟨er, ds, sr⟩ s).fst.isNormalResult = true
  unfold executeCore
  cases hd : firstDangerous code with
  | some kw => rfl
  | none =>
      cases er with
      | raises p e => exact handleExc_isNormalResult e p (h1 p e rfl)
      | ok p u =>
          cases ds
          · rfl
          · cases sr with
            | ok q v => rfl
            | raises q e => exact handleExc_isNormalResult e (p ++ q) (h2 q e rfl)

/-- C2 witness: a well-behaved candidate (no exception anywhere) at the
concrete inputs, with both hypotheses discharged. -/
theorem c2_witness :
    (({ } : SandboxExecutor).execute "def scrape(url): return []"
      { execRun := PyOutcome.ok "" (), definesScrape := true,
        scrapeRun := PyOutcome.ok "" (PyValue.listOf []) }
      (StdoutStream.host 7)).fst.isNormalResult = true :=
  c2_no_escape_for_exception_level { } "def scrape(url): return []"
    { execRun := PyOutcome.ok "" (), definesScrape := true,
      scrapeRun := PyOutcome.ok "" (PyValue.listOf []) }
    (StdoutStream.host 7)
    (fun _ _ h => nomatch h) (fun _ _ h => nomatch h)

/-- C3 counterexample: a candidate whose top-level evaluation prints
`hello` but defines no `scrape` — the missing-entry-point return on
lines 154-157 omits the `stdout` argument, so the result's stdout is the
empty string even though output was captured before `execute` finished. -/
theorem c3_counterexample :
    (({ } : SandboxExecutor).execute "print(123)"
      { execRun := PyOutcome.ok "hello" (), definesScrape := false,
        scrapeRun := PyOutcome.ok "" PyValue.none } (StdoutStream.host 0)).fst
    = ExecOutcome.result
        { success := false, data := PyValue.none,
          error := some missingEntryMsg, stdout := "" } := by
  rfl

/-- C3 (amended): the result's `stdout` field carries everything printed so
far on the `Success`, missing-module and caught-runtime-failure outcomes;
the pre-scan rejection returns before anything runs, and the
missing-entry-point return discards the output captured during top-level
evaluation and reports an empty `stdout`. -/
theorem c3_stdout_by_outcome (ex : SandboxExecutor) (code : String)
    (beh : CandidateBehavior) (s : StdoutStream)
    (hpre : firstDangerous code = Option.none) :
    (∀ p e, beh.execRun = PyOutcome.raises p e →
        e.isModuleNotFound = true ∨ e.isException = true →
        outcomeStdout (ex.execute code beh s).fst = some p) ∧
    (∀ p, beh.execRun = PyOutcome.ok p () → beh.definesScrape = false →
        outcomeStdout (ex.execute code beh s).fst = some "") ∧
    (∀ p q v, beh.execRun = PyOutcome.ok p () → beh.definesScrape = true →
        beh.scrapeRun = PyOutcome.ok q v →
        outcomeStdout (ex.execute code beh s).fst = some (p ++ q)) ∧
    (∀ p q e, beh.execRun = PyOutcome.ok p () → beh.definesScrape = true →
        beh.scrapeRun = PyOutcome.raises q e →
        e.isModuleNotFound = true ∨ e.isException = true →
        outcomeStdout (ex.execute code beh s).fst = some (p ++ q)) := by
  refine ⟨?_, ?_, ?_, ?_⟩
  · intro p e h hex
    show outcomeStdout (executeCore ALLOWED_MODULES ex.timeout code beh s).fst = some p
    unfold executeCore
    rw [hpre, h]
    exact handleExc_stdout e p hex
  · intro p h hds
    show outcomeStdout (executeCore ALLOWED_MODULES ex.timeout code beh s).fst = some ""
    unfold executeCore
    rw [hpre, h, hds]
    rfl
  · intro p q v h hds hsr
    show outcomeStdout (executeCore ALLOWED_MODULES ex.timeout code beh s).fst = some (p ++ q)
    unfold executeCore
    rw [hpre, h, hds, hsr]
    rfl
  · intro p q e h hds hsr hex
    show outcomeStdout (executeCore ALLOWED_MODULES ex.timeout code beh s).fst = some (p ++ q)
    unfold executeCore
    rw [hpre, h, hds, hsr]
    exact handleExc_stdout e (p ++ q) hex

/-- C3 witness: the amended theorem applied at a concrete candidate whose
`scrape` prints and succeeds, with the pre-scan hypothesis discharged. -/
theorem c3_witness :
    outcomeStdout ((({ } : SandboxExecutor).execute "def scrape(url): pass"
      { execRun := PyOutcome.ok "top " (), definesScrape := true,
        scrapeRun := PyOutcome.ok "inner" (PyValue.int 5) }
      (StdoutStream.host 0)).fst) = some ("top " ++ "inner") :=
  (c3_stdout_by_outcome { } "def scrape(url): pass"
      { execRun := PyOutcome.ok "top " (), definesScrape := true,
        scrapeRun := PyOutcome.ok "inner" (PyValue.int 5) }
      (StdoutStream.host 0) (by decide)).2.2.1 "top " "inner"
      (PyValue.int 5) rfl rfl rfl

/-- C4 counterexample: a source that binds `scrape` to a non-callable (the
name is in the namespace, so the line-153 membership test passes) — calling
it raises `TypeError`, which the generic handler reports; the result is a
runtime-failure message, not the missing-entry-point message. -/
theorem c4_counterexample :
    outcomeError ((({ } : SandboxExecutor).execute "scrape = 42"
      { execRun := PyOutcome.ok "" (), definesScrape := true,
        scrapeRun := PyOutcome.raises ""
          { tyName := "TypeError",
            msg := squote ++ "int" ++ squote ++ " object is not callable",
            isModuleNotFound := false, isException := true } }
      (StdoutStream.host 0)).fst)
    = some (some ("TypeError" ++ ": " ++ squote ++ "int" ++ squote ++
        " object is not callable")) ∧
    ("TypeError" ++ ": " ++ squote ++ "int" ++ squote ++
        " object is not callable") ≠ missingEntryMsg := by
  exact ⟨rfl, by decide⟩

/-- C4 (amended): `execute` returns the missing-entry-point result exactly
when the name `scrape` is absent from the namespace after top-level
evaluation; when `scrape` is bound to a non-callable value the call is
attempted and its `TypeError` is reported through the generic handler
instead. -/
theorem c4_missing_name_gives_missing_entry (ex : SandboxExecutor)
    (code : String) (beh : CandidateBehavior) (s : StdoutStream) (p : String)
    (hpre : firstDangerous code = Option.none)
    (hexec : beh.execRun = PyOutcome.ok p ())
    (hns : beh.definesScrape = false) :
    (ex.execute code beh s).fst = ExecOutcome.result
      { success := false, data := PyValue.none,
        error := some missingEntryMsg, stdout := "" } := by
  show (executeCore ALLOWED_MODULES ex.timeout code beh s).fst = _
  unfold executeCore
  rw [hpre, hexec, hns]
  rfl

/-- C4 witness: the amended theorem applied at a concrete candidate that
defines helpers but no `scrape`, all hypotheses discharged. -/
theorem c4_witness :
    (({ } : SandboxExecutor).execute "def helper(): return 1"
      { execRun := PyOutcome.ok "" (), definesScrape := false,
        scrapeRun := PyOutcome.ok "" PyValue.none }
      (StdoutStream.host 3)).fst = ExecOutcome.result
      { success := false, data := PyValue.none,
        error := some missingEntryMsg, stdout := "" } :=
  c4_missing_name_gives_missing_entry { } "def helper(): return 1"
    { execRun := PyOutcome.ok "" (), definesScrape := false,
      scrapeRun := PyOutcome.ok "" PyValue.none }
    (StdoutStream.host 3) "" (by decide) rfl rfl

/-- C5 counterexample: the denied module name `scraper` — its denial message
contains the substring `scrape`, so the generic handler on lines 188-189
replaces the whole message: the result's error is the generic scrape hint,
which does not carry the offending module name. -/
theorem c5_counterexample :
    safe_import ALLOWED_MODULES "scraper" =
      ImportResult.denied (denialExc "scraper") ∧
    outcomeError ((({ } : SandboxExecutor).execute "import scraper"
      { execRun := PyOutcome.raises "" (denialExc "scraper"),
        definesScrape := false, scrapeRun := PyOutcome.ok "" PyValue.none }
      (StdoutStream.host 0)).fst) = some (some genericScrapeErr) ∧
    strContains genericScrapeErr "scraper" = false := by
  refine ⟨rfl, rfl, by decide⟩

/-- C5 (amended): an import of a module allowed neither by exact name nor by
base name raises the guard's `ImportError`, which `execute` always converts
into a normal `ExecutionResult` (never a raw import fault); the error
message carries the offending module name, except when the denial message
contains the substring `scrape`, in which case lines 188-189 replace it with
the generic scrape hint and the module name is lost. -/
theorem c5_denied_import_handled (ex : SandboxExecutor) (code : String)
    (beh : CandidateBehavior) (s : StdoutStream) (name p : String)
    (hallow : (ALLOWED_IMPORTS.contains name ||
               ALLOWED_IMPORTS.contains (base_name name)) = false)
    (hpre : firstDangerous code = Option.none)
    (hraise : beh.execRun = PyOutcome.raises p (denialExc name)) :
    safe_import ALLOWED_MODULES name = ImportResult.denied (denialExc name) ∧
    (ex.execute code beh s).fst.isNormalResult = true ∧
    (strContains (denialMsg name) "scrape" = false →
      outcomeError (ex.execute code beh s).fst =
        some (some ("ImportError" ++ ": " ++ denialMsg name)) ∧
      strContains ("ImportError" ++ ": " ++ denialMsg name) name = true) ∧
    (strContains (denialMsg name) "scrape" = true →
      outcomeError (ex.execute code beh s).fst =
        some (some genericScrapeErr)) := by
  have hexec : (ex.execute code beh s).fst = handleExc (denialExc name) p := by
    show (executeCore ALLOWED_MODULES ex.timeout code beh s).fst = _
    unfold executeCore
    rw [hpre, hraise]
  have hhandle : handleExc (denialExc name) p = ExecOutcome.result
      { success := false, data := PyValue.none,
        error := some (runtimeErrMsg (denialExc name)), stdout := p } := by
    rfl
  refine ⟨?_, ?_, ?_, ?_⟩
  · unfold safe_import
    rw [hallow]
    rfl
  · rw [hexec, hhandle]
    rfl
  · intro hno
    constructor
    · rw [hexec, hhandle]
      unfold outcomeError
      unfold runtimeErrMsg
      rw [show (denialExc name).msg = denialMsg name from rfl, hno]
      rfl
    · simp only [strContains, denialMsg, String.data_append,
        decide_eq_true_eq]
      exact ⟨"ImportError".data ++ ": ".data ++
          "Sandbox Restriction: Module ".data ++ squote.data,
        squote.data ++ " is not allowed.".data, by simp⟩
  · intro hyes
    rw [hexec, hhandle]
    unfold outcomeError
    unfold runtimeErrMsg
    rw [show (denialExc name).msg = denialMsg name from rfl, hyes]
    rfl

/-- C5 witness: the amended theorem at the denied module name `telnetlib`,
whose denial message does not contain `scrape`; all hypotheses discharged
concretely. -/
theorem c5_witness :
    strContains (denialMsg "telnetlib") "scrape" = false ∧
    (outcomeError ((({ } : SandboxExecutor).execute "import telnetlib"
      { execRun := PyOutcome.raises "" (denialExc "telnetlib"),
        definesScrape := false, scrapeRun := PyOutcome.ok "" PyValue.none }
      (StdoutStream.host 0)).fst) =
        some (some ("ImportError" ++ ": " ++ denialMsg "telnetlib")) ∧
     strContains ("ImportError" ++ ": " ++ denialMsg "telnetlib")
        "telnetlib" = true) :=
  ⟨by decide,
   (c5_denied_import_handled { } "import telnetlib"
      { execRun := PyOutcome.raises "" (denialExc "telnetlib"),
        definesScrape := false, scrapeRun := PyOutcome.ok "" PyValue.none }
      (StdoutStream.host 0) "telnetlib" "" (by decide) (by decide)
      rfl).2.2.1 (by decide)⟩

/-- C6: when the source text contains a configured denied substring, the
pre-scan on lines 136-141 fires before any evaluation: the result is the
policy-violation `ExecutionResult` for the first matching keyword, its
stdout is empty, and the whole outcome is independent of anything the
candidate program would have done — no name it would define is defined and
no side effect of it is performed. -/
theorem c6_policy_violation_no_execution (ex : SandboxExecutor)
    (code : String) (kw : String) (hkw : kw ∈ dangerous_keywords)
    (hc : strContains code kw = true)
    (beh beh' : CandidateBehavior) (s : StdoutStream) :
    ex.execute code beh s =
      (ExecOutcome.result (policyResult ((firstDangerous code).getD "")), s) ∧
    outcomeStdout (ex.execute code beh s).fst = some "" ∧
    ex.execute code beh s = ex.execute code beh' s := by
  have hsome : (firstDangerous code).isSome := by
    rw [firstDangerous, List.find?_isSome]
    exact ⟨kw, hkw, hc⟩
  obtain ⟨kw', hkw'⟩ := Option.isSome_iff_exists.mp hsome
  have h1 : ex.execute code beh s =
      (ExecOutcome.result (policyResult kw'), s) := by
    show executeCore ALLOWED_MODULES ex.timeout code beh s = _
    unfold executeCore
    rw [hkw']
    rfl
  have h2 : ex.execute code beh' s =
      (ExecOutcome.result (policyResult kw'), s) := by
    show executeCore ALLOWED_MODULES ex.timeout code beh' s = _
    unfold executeCore
    rw [hkw']
    rfl
  rw [hkw']
  exact ⟨h1, by rw [h1]; rfl, by rw [h1, h2]⟩

/-- C6 witness: a source containing the denied substring `os.` — the
theorem applied with both hypotheses discharged, at two arbitrary distinct
behaviours. -/
theorem c6_witness :
    (({ } : SandboxExecutor).execute "import os.path"
      { execRun := PyOutcome.ok "SIDE EFFECT" (), definesScrape := true,
        scrapeRun := PyOutcome.ok "MORE" (PyValue.int 1) }
      (StdoutStream.host 0)) =
      (ExecOutcome.result
        (policyResult ((firstDangerous "import os.path").getD "")),
       StdoutStream.host 0) ∧
    outcomeStdout ((({ } : SandboxExecutor).execute "import os.path"
      { execRun := PyOutcome.ok "SIDE EFFECT" (), definesScrape := true,
        scrapeRun := PyOutcome.ok "MORE" (PyValue.int 1) }
      (StdoutStream.host 0)).fst) = some "" ∧
    (({ } : SandboxExecutor).execute "import os.path"
      { execRun := PyOutcome.ok "SIDE EFFECT" (), definesScrape := true,
        scrapeRun := PyOutcome.ok "MORE" (PyValue.int 1) }
      (StdoutStream.host 0)) =
    (({ } : SandboxExecutor).execute "import os.path"
      { execRun := PyOutcome.raises "OTHER" (denialExc "x"),
        definesScrape := false, scrapeRun := PyOutcome.ok "" PyValue.none }
      (StdoutStream.host 0)) :=
  c6_policy_violation_no_execution { } "import os.path" "os."
    (by decide) (by decide)
    { execRun := PyOutcome.ok "SIDE EFFECT" (), definesScrape := true,
      scrapeRun := PyOutcome.ok "MORE" (PyValue.int 1) }
    { execRun := PyOutcome.raises "OTHER" (denialExc "x"),
      definesScrape := false, scrapeRun := PyOutcome.ok "" PyValue.none }
    (StdoutStream.host 0)

/-- C7 counterexample: a `scrape` that returns Python `None` — the call
succeeds, so `execute` returns `success = True` with `data = None`, the very
value every failure result carries: a `Success` result with no payload. -/
theorem c7_counterexample :
    (({ } : SandboxExecutor).execute "def scrape(url): return None"
      { execRun := PyOutcome.ok "" (), definesScrape := true,
        scrapeRun := PyOutcome.ok "" PyValue.none } (StdoutStream.host 0)).fst
    = ExecOutcome.result
        { success := true, data := PyValue.none, error := Option.none,
          stdout := "" } := by
  rfl

/-- C7 (amended): every non-`Success` result carries `data = None`; a
`Success` result carries exactly the value returned by `scrape(url)` — which
is itself `None` precisely when the candidate returns `None`, so `Success`
does not guarantee a non-`None` payload. -/
theorem c7_payload_only_from_scrape (ex : SandboxExecutor) (code : String)
    (beh : CandidateBehavior) (s : StdoutStream) (r : ExecutionResult)
    (h : (ex.execute code beh s).fst = ExecOutcome.result r) :
    (r.success = false → r.data = PyValue.none) ∧
    (r.success = true → ∃ p q, beh.execRun = PyOutcome.ok p () ∧
        beh.definesScrape = true ∧ beh.scrapeRun = PyOutcome.ok q r.data) := by
  obtain ⟨er, ds, sr⟩ := beh
  have h' : (executeCore ALLOWED_MODULES ex.timeout code ⟨er, ds, sr⟩ s).fst
      = ExecOutcome.result r := h
  unfold executeCore at h'
  revert h'
  cases hd : firstDangerous code with
  | some kw =>
      intro h'
      cases h'
      exact ⟨fun _ => rfl, fun hs => by cases hs⟩
  | none =>
      cases er with
      | raises p e =>
          intro h'
          unfold handleExc at h'
          revert h'
          by_cases hm : e.isModuleNotFound = true
          · simp only [hm, if_true]
            intro h'
            cases h'
            exact ⟨fun _ => rfl, fun hs => by cases hs⟩
          · by_cases hex : e.isException = true
            · simp only [hm, hex, if_false, if_true, Bool.false_eq_true]
              intro h'
              cases h'
              exact ⟨fun _ => rfl, fun hs => by cases hs⟩
            · simp only [hm, hex, Bool.false_eq_true, if_false]
              intro h'
              cases h'
      | ok p u =>
          cases ds
          · intro h'
            cases h'
            exact ⟨fun _ => rfl, fun hs => by cases hs⟩
          · cases sr with
            | ok q v =>
                cases u
                intro h'
                cases h'
                constructor
                · intro hs
                  cases hs
                · intro hs
                  exact ⟨p, q, rfl, rfl, rfl⟩
            | raises q e =>
                intro h'
                unfold handleExc at h'
                revert h'
                by_cases hm : e.isModuleNotFound = true
                · simp only [hm, if_true]
                  intro h'
                  cases h'
                  exact ⟨fun _ => rfl, fun hs => by cases hs⟩
                · by_cases hex : e.isException = true
                  · simp only [hm, hex, if_false, if_true, Bool.false_eq_true]
                    intro h'
                    cases h'
                    exact ⟨fun _ => rfl, fun hs => by cases hs⟩
                  · simp only [hm, hex, Bool.false_eq_true, if_false]
                    intro h'
                    cases h'

/-- C7 witness: the amended theorem at a concrete successful run whose
`scrape` returns a record list, hypothesis discharged by computation. -/
theorem c7_witness :
    ((({ } : SandboxExecutor).execute "def scrape(url): return [1]" c7beh
        (StdoutStream.host 0)).fst = ExecOutcome.result c7res) ∧
    ((c7res.success = false → c7res.data = PyValue.none) ∧
     (c7res.success = true → ∃ p q, c7beh.execRun = PyOutcome.ok p () ∧
        c7beh.definesScrape = true ∧
        c7beh.scrapeRun = PyOutcome.ok q c7res.data)) :=
  ⟨rfl, c7_payload_only_from_scrape { } "def scrape(url): return [1]" c7beh
    (StdoutStream.host 0) c7res rfl⟩

theorem pairwise_lt_range_one (s n : Nat) :
    (List.range' s n).Pairwise (· < ·) := by
  induction n generalizing s with
  | zero => simp
  | succ n ih =>
      rw [List.range'_succ s n 1]
      refine List.Pairwise.cons ?_ (ih (s + 1))
      intro b hb
      have := List.mem_range'_1.mp hb
      omega

theorem sessionLoop_history (engine : Nat → Bool) (m : Nat) :
    ∀ (fuel a : Nat),
      (sessionLoop engine m a fuel).fst.length ≤ fuel ∧
      (sessionLoop engine m a fuel).fst.map AttemptRecord.attempt =
        List.range' a (sessionLoop engine m a fuel).fst.length := by
  intro fuel
  induction fuel with
  | zero => intro a; exact ⟨Nat.le_refl 0, rfl⟩
  | succ f ih =>
      intro a
      unfold sessionLoop
      by_cases hok : engine a = true
      · rw [if_pos hok]
        exact ⟨Nat.succ_le_succ (Nat.zero_le f), rfl⟩
      · by_cases hmax : a = m
        · subst hmax
          rw [if_neg hok, if_pos rfl]
          exact ⟨Nat.succ_le_succ (Nat.zero_le f), rfl⟩
        · rw [if_neg hok, if_neg hmax]
          obtain ⟨ihl, ihm⟩ := ih (a + 1)
          refine ⟨?_, ?_⟩
          · simpa using Nat.succ_le_succ ihl
          · simp only [List.map_cons, List.length_cons, ihm,
              List.range'_succ]

/-- C8: an `AttemptSession` with bound `maxAttempts = N` performs at most N
Execution Engine calls (one per history entry) before reaching a terminal
state, and the attempt numbers recorded in its history are exactly
`1, 2, …, length` — strictly increasing and starting at 1 — whatever the
per-attempt outcomes are. -/
theorem c8_attempts_bounded_increasing (engine : Nat → Bool) (N : Nat) :
    (runSession engine N).fst.length ≤ N ∧
    (runSession engine N).fst.map AttemptRecord.attempt =
      List.range' 1 (runSession engine N).fst.length ∧
    ((runSession engine N).fst.map AttemptRecord.attempt).Pairwise (· < ·) := by
  obtain ⟨hlen, hmap⟩ := sessionLoop_history engine N N 1
  exact ⟨hlen, hmap,
    by rw [show (runSession engine N) = sessionLoop engine N 1 N from rfl,
          hmap]
       exact pairwise_lt_range_one 1 _⟩
